import Mathlib

/-!
Shallow embedding of the three scripts of the repository
(src/scripts/multi-cloud-deployment/insert_test.py,
 src/scripts/multi-cloud-deployment/read_test.py,
 src/scripts/test-scripts/mongo-python-data-pusher.py)
together with theorems settling the specification claims about them.

Modelling conventions:
  - A Python exception is a `PyExc`: its class name, its `str(e)` message, an
    optional structured `details` payload (absent attribute = `none`), and the
    representation of its `cause` attribute (the double-underscore cause slot,
    which every Python 3 exception object possesses, so the corresponding
    diagnostic line is always printed when the handler tests for it).
  - Each fallible database call (client construction, insert, count, find)
    is an input of type `Except PyExc A`: the environment decides whether the
    call succeeds and with what value, the script code reacts to it.
  - Wall-clock readings of the timing function are a list of `Nat` values, one
    reading per top-of-loop test, supplied by the environment; the sleep call
    only advances that clock.
  - `print` output is a `List String` of lines, built with the same format
    strings as the source (Python left-justification is `ljust`).
  - An uncaught exception terminates the interpreter with exit status 1 and a
    traceback on stderr whose last line is the exception class and message;
    `RunResult.trace` models that line, `RunResult.out` models stdout.
-/

/-- Python left-justified padding, the meaning of a format item of the shape
width-annotated field in an f-string: pad with spaces on the right up to the
requested width, leave longer strings unchanged. -/
def ljust (s : String) (w : Nat) : String :=
  s ++ String.mk (List.replicate (w - s.length) ' ')

/-- A Python exception as the scripts observe it: class name, message,
optional structured details payload (a dict, modelled as an association
list), and the rendering of its cause slot. -/
structure PyExc where
  ty : String
  msg : String
  details : Option (List (String × String))
  cause : String
deriving DecidableEq, Repr

/-- Rendering of a details dict for a diagnostic print line. The exact dict
representation Python would print is irrelevant to every claim; only the
presence of the line matters. -/
def pyReprDict (d : List (String × String)) : String :=
  String.intercalate ", " (d.map (fun kv => kv.1 ++ ": " ++ kv.2))

/-- The last line of the interpreter traceback printed for an uncaught
exception: exception class and message. -/
def pyTraceback (e : PyExc) : String :=
  e.ty ++ ": " ++ e.msg

/-- Python truthiness of the `x or y` idiom on an optional string: `none` and
the empty string fall through to the alternative. -/
def pyOrElse (a : Option String) (b : String) : String :=
  match a with
  | some s => if s = "" then b else s
  | none => b

/-- A field value of a document handed to the database driver. -/
inductive Value where
  | str (s : String)
  | nat (n : Nat)
  | arr (l : List String)
  | time (t : String)
deriving DecidableEq, Repr

/-- A document: an ordered field list, as written literally in the scripts. -/
abbrev Doc := List (String × Value)

/-- A database operation issued by a script, as seen on the wire: a
single-document insert, an aggregate count of the whole collection, or a
find returning every document. -/
inductive DbOp where
  | insertOne (doc : Doc)
  | countDocuments
  | findAll
deriving DecidableEq, Repr

/-- Whether an operation reads data from the collection. -/
def DbOp.isReadB : DbOp → Bool
  | .insertOne _ => false
  | .countDocuments => true
  | .findAll => true

/-- Whether an operation is an aggregate count of the whole collection. -/
def DbOp.isCountB : DbOp → Bool
  | .countDocuments => true
  | _ => false

/-- Whether an operation is a single-document insert. -/
def DbOp.isInsertB : DbOp → Bool
  | .insertOne _ => true
  | _ => false

/-- The abstract timed poll loop shared by the two multi-cloud scripts:
given the precomputed absolute end time and the successive readings the
timing function returns at each top-of-loop test, the number of loop-body
iterations executed. The loop body runs exactly when the reading at its top
is strictly below the end time; the first reading at or past the end time
stops the loop. -/
def loopIters (endTime : Nat) : List Nat → Nat
  | [] => 0
  | t :: rest => if t < endTime then loopIters endTime rest + 1 else 0

/-- The loop never executes more iterations than it has clock readings. -/
theorem loopIters_le_length (endTime : Nat) (clocks : List Nat) :
    loopIters endTime clocks ≤ clocks.length := by
  induction clocks with
  | nil => simp [loopIters]
  | cons t rest ih =>
    by_cases h : t < endTime <;> simp [loopIters, h] <;> try omega

/-- Every executed iteration begins strictly before the end time: the reading
at the top of each executed iteration is below the end time. -/
theorem loopIters_exec_lt (endTime : Nat) (clocks : List Nat) (i : Nat)
    (hi : i < loopIters endTime clocks) :
    ∃ t, clocks[i]? = some t ∧ t < endTime := by
  induction clocks generalizing i with
  | nil => simp [loopIters] at hi
  | cons t rest ih =>
    by_cases h : t < endTime
    · cases i with
      | zero => exact ⟨t, by simp, h⟩
      | succ j =>
        simp only [loopIters, h, if_true] at hi
        obtain ⟨u, hu, hlt⟩ := ih j (by omega)
        exact ⟨u, by simpa using hu, hlt⟩
    · simp [loopIters, h] at hi

/-- A reading at or past the end time at the top of the loop executes zero
further iterations. -/
theorem loopIters_stop (endTime t : Nat) (rest : List Nat) (h : endTime ≤ t) :
    loopIters endTime (t :: rest) = 0 := by
  simp [loopIters, Nat.not_lt.mpr h]

/-- A strictly increasing integer-valued clock gains at least one unit per
reading. -/
theorem strictMono_add_le (c : Nat → Nat) (hc : StrictMono c) (n : Nat) :
    c 0 + n ≤ c n := by
  induction n with
  | zero => omega
  | succ m ih =>
    have h2 : c m < c (m + 1) := hc (Nat.lt_succ_self m)
    omega

/-- Under a strictly increasing clock the loop executes at most `d`
iterations when the end time is `d` past the first reading: termination
within a bounded number of iterations. -/
theorem loopIters_strictMono_le (c : Nat → Nat) (hc : StrictMono c)
    (d n : Nat) :
    loopIters (c 0 + d) ((List.range n).map c) ≤ d := by
  by_contra h
  push_neg at h
  obtain ⟨t, hget, hlt⟩ := loopIters_exec_lt (c 0 + d) ((List.range n).map c) d h
  have hlen : d < ((List.range n).map c).length :=
    Nat.lt_of_lt_of_le h (loopIters_le_length _ _)
  simp only [List.length_map, List.length_range] at hlen
  rw [List.getElem?_map, List.getElem?_range hlen] at hget
  simp only [Option.map_some', Option.some.injEq] at hget
  have := strictMono_add_le c hc d
  omega

deriving instance DecidableEq for Except

/-! ## insert_test.py -/

/-- Loop duration of insert_test.py: the source computes the end time as
start plus `10 * 60` seconds. -/
def insertDurationSecs : Nat := 10 * 60

/-- Inter-iteration delay of insert_test.py: the sleep call at the bottom of
the loop body, in seconds. -/
def insertSleepSecs : Nat := 1

/-- The endpoint shown in the header: the part of the connection string after
the at-sign when one is present, otherwise the word local. -/
def endpointOf (cs : String) : String :=
  if cs.contains '@' then (cs.splitOn "@").getD 1 "" else "local"

/-- The probe document insert_test.py builds each iteration from the current
value of its counter. -/
def probeDoc (count : Nat) : Doc :=
  [("count", Value.nat count),
   ("message", Value.str ("Insert operation " ++ toString count))]

/-- The environment of one insert_test.py loop iteration: the clock reading
at the top-of-loop test, the formatted timestamp the iteration captures, and
the outcomes of the two database calls it attempts (insert, then aggregate
count). An `Except.ok` insert carries the inserted identifier rendered as a
string; an `Except.ok` count carries the count value. -/
structure InsertEnv where
  now : Nat
  timestamp : String
  insertRes : Except PyExc String
  countRes : Except PyExc Nat
deriving DecidableEq, Repr

/-- Result of one insert_test.py loop-body execution: the updated counter,
the lines printed, and the probe documents persisted by the iteration (one
on a successful insert, none on a failed one). -/
structure InsertIterRes where
  count : Nat
  lines : List String
  docs : List Doc
deriving DecidableEq, Repr

/-- One loop-body execution of insert_test.py. The try block builds the probe
document from the current counter, attempts the insert, and on success
records the identifier and increments the counter; on failure it prints one
error line using the errmsg entry of the details payload when present,
falling back to the message. The second try block attempts the aggregate
count and prints the single status line (success variant or the
read-available variant), or a read-error line when the count itself fails. -/
def insertIter (count : Nat) (e : InsertEnv) : InsertIterRes :=
  match e.insertRes with
  | .ok insertedId =>
    match e.countRes with
    | .ok rc =>
      { count := count + 1,
        lines := [ljust e.timestamp 12 ++ " " ++ ljust insertedId 30 ++ " " ++
                  ljust (toString rc) 15],
        docs := [probeDoc count] }
    | .error _ =>
      { count := count + 1,
        lines := ["[" ++ e.timestamp ++ "] read error"],
        docs := [probeDoc count] }
  | .error ex =>
    let shortErr := pyOrElse (ex.details.bind fun d => d.lookup "errmsg") ex.msg
    let errLine := "[" ++ e.timestamp ++ "] Error: " ++ shortErr
    match e.countRes with
    | .ok rc =>
      { count := count,
        lines := [errLine,
                  ljust e.timestamp 12 ++ " " ++ ljust "READ AVAILABLE" 30 ++ " " ++
                  ljust (toString rc) 15],
        docs := [] }
    | .error _ =>
      { count := count,
        lines := [errLine, "[" ++ e.timestamp ++ "] read error"],
        docs := [] }

/-- Result of a whole insert_test.py loop run: final counter, printed lines,
persisted probe documents in insertion order, and number of
iterations executed. -/
structure InsertLoopRes where
  count : Nat
  lines : List String
  docs : List Doc
  iters : Nat
deriving DecidableEq, Repr

/-- The insert_test.py poll loop: while the clock reading at the top is below
the end time, run the loop body on the next iteration environment. -/
def insertLoop (endTime : Nat) (count : Nat) : List InsertEnv → InsertLoopRes
  | [] => { count := count, lines := [], docs := [], iters := 0 }
  | e :: rest =>
    if e.now < endTime then
      let r := insertIter count e
      let rr := insertLoop endTime r.count rest
      { count := rr.count, lines := r.lines ++ rr.lines,
        docs := r.docs ++ rr.docs, iters := rr.iters + 1 }
    else
      { count := count, lines := [], docs := [], iters := 0 }

/-- The database operations one insert_test.py iteration issues: one insert
attempt of the probe document built from the current counter, then one
aggregate count of the whole collection (both attempted regardless of the
preceding outcome, since each sits in its own try block). -/
def insertIterOps (count : Nat) : List DbOp :=
  [DbOp.insertOne (probeDoc count), DbOp.countDocuments]

/-- The usage line insert_test.py prints when the argument count is wrong. -/
def insertUsageLine (t : String) : String :=
  "[" ++ t ++ "] Usage: python insert_test.py <connection_string>"

/-- The header lines insert_test.py prints after the client is constructed:
the starting banner, the endpoint line, a blank line, the column header, and
the dash rule of width 77. -/
def insertHeader (t1 t2 cs : String) : List String :=
  ["[" ++ t1 ++ "] Starting insert operations for 10 minutes...",
   "[" ++ t2 ++ "] Using: " ++ endpointOf cs,
   "",
   ljust "Timestamp" 12 ++ " " ++ ljust "Inserted Document" 30 ++ " " ++
     ljust "Read Count" 15,
   String.mk (List.replicate 77 '-')]

/-- Observable outcome of a whole script process: exit status, stdout lines,
the traceback line printed on stderr for an uncaught exception (empty list
otherwise), whether the process exited at the argument check, and whether
control reached the poll loop. -/
structure RunResult where
  status : Nat
  out : List String
  trace : List String
  usageExit : Bool
  enteredLoop : Bool
deriving DecidableEq, Repr

/-- The whole environment of one insert_test.py process: the argument vector
(as the interpreter exposes it, script name first), the timestamps the
header and summary calls of the timestamp helper return, the outcome of
client construction, the wall-clock start value, the loop iteration
environments, and the outcome of the final aggregate count. -/
structure InsertInput where
  argv : List String
  tsUsage : String
  connRes : Except PyExc Unit
  ts1 : String
  ts2 : String
  start : Nat
  envs : List InsertEnv
  tsEnd : String
  finalCountRes : Except PyExc Nat
  tsFinal : String
deriving DecidableEq, Repr

/-- The insert_test.py process, top to bottom: argument check (usage plus
exit 1 unless exactly two argv entries), client construction (an exception
here is uncaught, so the interpreter prints a traceback and exits 1), header
prints, the 600-second poll loop from counter 0, the completed-summary line,
then the final aggregate count, which sits outside any try block: its
failure is likewise an uncaught exception, after which the final-read-count
line is never printed; otherwise the process closes the client and exits 0. -/
def insert_test_run (inp : InsertInput) : RunResult :=
  if inp.argv.length ≠ 2 then
    { status := 1, out := [insertUsageLine inp.tsUsage], trace := [],
      usageExit := true, enteredLoop := false }
  else
    match inp.connRes with
    | .error e =>
      { status := 1, out := [], trace := [pyTraceback e],
        usageExit := false, enteredLoop := false }
    | .ok _ =>
      let cs := inp.argv.getD 1 ""
      let hdr := insertHeader inp.ts1 inp.ts2 cs
      let endTime := inp.start + insertDurationSecs
      let r := insertLoop endTime 0 inp.envs
      let completedLine :=
        "[" ++ inp.tsEnd ++ "] Completed " ++ toString r.count ++
        " insert operations in 10 minutes"
      match inp.finalCountRes with
      | .error e =>
        { status := 1, out := hdr ++ r.lines ++ [completedLine],
          trace := [pyTraceback e], usageExit := false, enteredLoop := true }
      | .ok fc =>
        { status := 0,
          out := hdr ++ r.lines ++
                 [completedLine, "[" ++ inp.tsFinal ++ "] Final read count: " ++ toString fc],
          trace := [], usageExit := false, enteredLoop := true }

/-! ## read_test.py -/

/-- Loop duration of read_test.py: the source computes the end time as start
plus `10 * 60` seconds. -/
def readDurationSecs : Nat := 10 * 60

/-- Inter-iteration delay of read_test.py: the sleep call at the bottom of
the loop body, in seconds. -/
def readSleepSecs : Nat := 1

/-- The seed document read_test.py inserts once before the loop; its
timestamp field holds the current datetime, supplied by the environment. -/
def seedDoc (t : String) : Doc :=
  [("count", Value.nat 0),
   ("message", Value.str ("Initial test document")),
   ("timestamp", Value.time t)]

/-- The environment of one read_test.py loop iteration: the clock reading at
the top-of-loop test, the formatted timestamp the iteration captures, and
the outcome of the aggregate count it attempts. -/
structure ReadEnv where
  now : Nat
  timestamp : String
  countRes : Except PyExc Nat
deriving DecidableEq, Repr

/-- Result of one read_test.py loop-body execution: the two updated counters
and the lines printed. -/
structure ReadIterRes where
  read_count : Nat
  error_count : Nat
  lines : List String
deriving DecidableEq, Repr

/-- The diagnostic lines the read_test.py loop handler and seed handler print
for the optional details payload: one line when the attribute is present,
none otherwise. -/
def detailsLines (ex : PyExc) : List String :=
  match ex.details with
  | some d => ["  Details: " ++ pyReprDict d]
  | none => []

/-- One loop-body execution of read_test.py. On a successful count the
success counter advances and one status line is printed; on a failure the
error counter advances and the handler prints the error status line, the
exception class and message lines, the details line when that attribute is
present, the cause line (the cause slot exists on every exception object, so
its guard always passes), and a blank line. -/
def readIter (read_count error_count : Nat) (e : ReadEnv) : ReadIterRes :=
  match e.countRes with
  | .ok c =>
    { read_count := read_count + 1, error_count := error_count,
      lines := [ljust e.timestamp 20 ++ " " ++ ljust (toString c) 15 ++ " " ++
                ljust "Success" 20] }
  | .error ex =>
    { read_count := read_count, error_count := error_count + 1,
      lines := [ljust e.timestamp 20 ++ " " ++ ljust "N/A" 15 ++ " " ++
                  ljust "ERROR" 20,
                "  Exception Type: " ++ ex.ty,
                "  Exception Message: " ++ ex.msg] ++
               detailsLines ex ++
               ["  Cause: " ++ ex.cause, ""] }

/-- Result of a whole read_test.py loop run: final counters, printed lines,
and number of iterations executed. -/
structure ReadLoopRes where
  read_count : Nat
  error_count : Nat
  lines : List String
  iters : Nat
deriving DecidableEq, Repr

/-- The read_test.py poll loop: while the clock reading at the top is below
the end time, run the loop body on the next iteration environment. -/
def readLoop (endTime : Nat) (read_count error_count : Nat) :
    List ReadEnv → ReadLoopRes
  | [] => { read_count := read_count, error_count := error_count,
            lines := [], iters := 0 }
  | e :: rest =>
    if e.now < endTime then
      let r := readIter read_count error_count e
      let rr := readLoop endTime r.read_count r.error_count rest
      { read_count := rr.read_count, error_count := rr.error_count,
        lines := r.lines ++ rr.lines, iters := rr.iters + 1 }
    else
      { read_count := read_count, error_count := error_count,
        lines := [], iters := 0 }

/-- The database operations one read_test.py loop iteration issues: a single
aggregate count of the whole collection. -/
def readIterOps : List DbOp := [DbOp.countDocuments]

/-- The summary block read_test.py prints after the loop: a blank line, the
successful-reads line, the total-errors line, then the final aggregate count
inside its own try block — its success prints the final-count line, its
failure prints a three-line diagnostic and the process still completes
normally. -/
def readSummaryLines (read_count error_count : Nat)
    (finalRes : Except PyExc Nat) : List String :=
  ["",
   "Completed " ++ toString read_count ++ " successful read operations in 10 minutes",
   "Total errors: " ++ toString error_count] ++
  (match finalRes with
   | .ok c => ["Final document count: " ++ toString c]
   | .error e => ["ERROR reading final count:",
                  "  Exception Type: " ++ e.ty,
                  "  Exception Message: " ++ e.msg])

/-- The lines the read_test.py seed handler prints on a failed seed insert,
before exiting with status 1. -/
def seedErrLines (e : PyExc) : List String :=
  ["ERROR inserting document:",
   "  Exception Type: " ++ e.ty,
   "  Exception Message: " ++ e.msg] ++ detailsLines e

/-- The whole environment of one read_test.py process: argument vector
(script name first), client-construction outcome, seed-insert outcome (the
inserted identifier on success), wall-clock start value, loop iteration
environments, and final-count outcome. -/
structure ReadInput where
  argv : List String
  connRes : Except PyExc Unit
  seedRes : Except PyExc String
  start : Nat
  envs : List ReadEnv
  finalCountRes : Except PyExc Nat
deriving DecidableEq, Repr

/-- The read_test.py process, top to bottom: argument check (the usage line
it prints names insert_test.py, copied verbatim from the source), client
construction (uncaught on failure), the banner and endpoint lines, the seed
insert whose failure prints a diagnostic block and exits with status 1
before the loop, the loop header, the 600-second poll loop from both
counters 0, the summary block, and exit 0. -/
def read_test_run (inp : ReadInput) : RunResult :=
  if inp.argv.length ≠ 2 then
    { status := 1, out := ["Usage: python insert_test.py <connection_string>"],
      trace := [], usageExit := true, enteredLoop := false }
  else
    match inp.connRes with
    | .error e =>
      { status := 1, out := [], trace := [pyTraceback e],
        usageExit := false, enteredLoop := false }
    | .ok _ =>
      let cs := inp.argv.getD 1 ""
      let pre := ["Performing initial insert operation...",
                  "Using: " ++ endpointOf cs]
      match inp.seedRes with
      | .error e =>
        { status := 1, out := pre ++ seedErrLines e, trace := [],
          usageExit := false, enteredLoop := false }
      | .ok insertedId =>
        let hdr := [ "Successfully inserted document with ID: " ++ insertedId,
                     "",
                     "Starting read operations for 10 minutes...",
                     ljust "Timestamp" 20 ++ " " ++ ljust "Read Count" 15 ++ " " ++
                       ljust "Status" 20,
                     String.mk (List.replicate 80 '-')]
        let endTime := inp.start + readDurationSecs
        let r := readLoop endTime 0 0 inp.envs
        { status := 0,
          out := pre ++ hdr ++ r.lines ++
                 readSummaryLines r.read_count r.error_count inp.finalCountRes,
          trace := [], usageExit := false, enteredLoop := true }

/-! ## mongo-python-data-pusher.py -/

/-- The movie document the data pusher inserts, written literally in the
source. -/
def movieDoc : Doc :=
  [("title", Value.str ("The Favourite MongoDB Movie")),
   ("genres", Value.arr ["Drama", "History"]),
   ("runtime", Value.nat 121),
   ("rated", Value.str ("R")),
   ("year", Value.nat 2018),
   ("directors", Value.arr ["Yorgos Lanthimos"]),
   ("cast", Value.arr ["Olivia Colman", "Emma Stone", "Rachel Weisz"]),
   ("type", Value.str ("movie"))]

/-- The database operations the data pusher issues, in order: one insert of
the movie document, then a find over the whole collection that iterates and
pretty-prints every returned document. There is no loop and no count. -/
def pusherOps : List DbOp := [DbOp.insertOne movieDoc, DbOp.findAll]

/-- Rendering of one pretty-printed document returned by the find. The exact
pretty-printer layout is irrelevant to every claim; one line per document
stands in for it. -/
def pprintDoc (d : Doc) : String :=
  String.intercalate "; " (d.map (fun kv => kv.1))

/-- The data-pusher process: it never consults the argument vector (the
source reads no command-line arguments at all — host, port and credentials
are hardcoded), constructs the client, inserts the movie document (an
exception here is uncaught: traceback and exit status 1), prints the
inserted identifier, then iterates the find cursor pretty-printing each
document (a find failure is likewise uncaught). There is no argument
validation, no usage message and no poll loop anywhere in the script. -/
def pusher_run (argv : List String) (insertRes : Except PyExc String)
    (findRes : Except PyExc (List Doc)) : RunResult :=
  match insertRes with
  | .error e =>
    { status := 1, out := [], trace := [pyTraceback e],
      usageExit := false, enteredLoop := false }
  | .ok insertedId =>
    match findRes with
    | .error e =>
      { status := 1, out := ["Inserted document ID: " ++ insertedId],
        trace := [pyTraceback e], usageExit := false, enteredLoop := false }
    | .ok docs =>
      { status := 0,
        out := ("Inserted document ID: " ++ insertedId) :: docs.map pprintDoc,
        trace := [], usageExit := false, enteredLoop := false }

/-! ## Helper lemmas about the loops -/

/-- Number of executed insert_test.py iterations whose insert attempt failed:
a property-side observable of a run (the script itself keeps no such
counter). -/
def insertLoopErrors (endTime : Nat) : List InsertEnv → Nat
  | [] => 0
  | e :: rest =>
    if e.now < endTime then
      (match e.insertRes with | .ok _ => 0 | .error _ => 1) +
        insertLoopErrors endTime rest
    else 0

/-- Number of executed insert_test.py iterations whose insert attempt
succeeded: a property-side observable of a run. -/
def insertLoopSuccesses (endTime : Nat) : List InsertEnv → Nat
  | [] => 0
  | e :: rest =>
    if e.now < endTime then
      (match e.insertRes with | .ok _ => 1 | .error _ => 0) +
        insertLoopSuccesses endTime rest
    else 0

/-- The counter after one insert_test.py iteration: incremented exactly on a
successful insert, whatever the count outcome. -/
theorem insertIter_count (c : Nat) (e : InsertEnv) :
    (insertIter c e).count =
      c + (match e.insertRes with | .ok _ => 1 | .error _ => 0) := by
  cases h1 : e.insertRes <;> cases h2 : e.countRes <;>
    simp [insertIter, h1, h2]

/-- The documents persisted by one insert_test.py iteration: the probe
document built from the current counter exactly on a successful insert. -/
theorem insertIter_docs (c : Nat) (e : InsertEnv) :
    (insertIter c e).docs =
      (match e.insertRes with | .ok _ => [probeDoc c] | .error _ => []) := by
  cases h1 : e.insertRes <;> cases h2 : e.countRes <;>
    simp [insertIter, h1, h2]

/-- Every insert_test.py iteration prints at least one line. -/
theorem insertIter_lines_pos (c : Nat) (e : InsertEnv) :
    1 ≤ (insertIter c e).lines.length := by
  cases h1 : e.insertRes <;> cases h2 : e.countRes <;>
    simp [insertIter, h1, h2]

/-- The insert_test.py loop executes exactly the iterations the abstract
timed poll loop admits on its clock readings. -/
theorem insertLoop_iters (endTime c : Nat) (envs : List InsertEnv) :
    (insertLoop endTime c envs).iters =
      loopIters endTime (envs.map InsertEnv.now) := by
  induction envs generalizing c with
  | nil => rfl
  | cons e rest ih =>
    by_cases h : e.now < endTime <;>
      simp [insertLoop, loopIters, h, ih]

/-- The insert_test.py counter never decreases across the loop. -/
theorem insertLoop_count_le (endTime c : Nat) (envs : List InsertEnv) :
    c ≤ (insertLoop endTime c envs).count := by
  induction envs generalizing c with
  | nil => exact Nat.le_refl c
  | cons e rest ih =>
    by_cases h : e.now < endTime
    · simp only [insertLoop, h, if_true]
      refine Nat.le_trans ?_ (ih (insertIter c e).count)
      rw [insertIter_count]
      cases e.insertRes <;> omega
    · simp [insertLoop, h]

/-- The final insert_test.py counter counts exactly the successful inserts of
the run. -/
theorem insertLoop_count_eq (endTime c : Nat) (envs : List InsertEnv) :
    (insertLoop endTime c envs).count = c + insertLoopSuccesses endTime envs := by
  induction envs generalizing c with
  | nil => rfl
  | cons e rest ih =>
    by_cases h : e.now < endTime
    · simp only [insertLoop, h, if_true, insertLoopSuccesses, ih,
        insertIter_count]
      cases e.insertRes <;> simp <;> omega
    · simp [insertLoop, insertLoopSuccesses, h]

/-- The documents an insert_test.py run persists are exactly the probe
documents of the consecutive counter values from the initial to the final
counter, in insertion order. -/
theorem insertLoop_docs (endTime c : Nat) (envs : List InsertEnv) :
    (insertLoop endTime c envs).docs =
      (List.range' c ((insertLoop endTime c envs).count - c)).map probeDoc := by
  induction envs generalizing c with
  | nil => simp [insertLoop]
  | cons e rest ih =>
    by_cases h : e.now < endTime
    · simp only [insertLoop, h, if_true]
      cases h1 : e.insertRes with
      | ok insertedId =>
        have hc : (insertIter c e).count = c + 1 := by
          rw [insertIter_count, h1]
        have hd : (insertIter c e).docs = [probeDoc c] := by
          rw [insertIter_docs, h1]
        rw [hd, hc] at *
        have hle := insertLoop_count_le endTime (c + 1) rest
        have hn : (insertLoop endTime (c + 1) rest).count - c =
            ((insertLoop endTime (c + 1) rest).count - (c + 1)) + 1 := by omega
        rw [hn, List.range'_succ, List.map_cons]
        simp only [List.cons_append, List.nil_append, List.cons.injEq, true_and]
        rw [ih (c + 1)]
      | error ex =>
        have hc : (insertIter c e).count = c := by
          simp [insertIter_count, h1]
        have hd : (insertIter c e).docs = [] := by
          simp [insertIter_docs, h1]
        rw [hd, hc]
        simpa using ih c
    · simp [insertLoop, h]

/-- The two counters after one read_test.py iteration: exactly one of the
two advances, according to the count outcome. -/
theorem readIter_counts (rc ec : Nat) (e : ReadEnv) :
    ((readIter rc ec e).read_count = rc + 1 ∧
       (readIter rc ec e).error_count = ec) ∨
    ((readIter rc ec e).read_count = rc ∧
       (readIter rc ec e).error_count = ec + 1) := by
  cases h : e.countRes
  · right
    constructor <;> simp [readIter, h]
  · left
    constructor <;> simp [readIter, h]

/-- Every read_test.py iteration prints at least one line. -/
theorem readIter_lines_pos (rc ec : Nat) (e : ReadEnv) :
    1 ≤ (readIter rc ec e).lines.length := by
  cases h : e.countRes <;> simp [readIter, h]

/-- The read_test.py loop executes exactly the iterations the abstract timed
poll loop admits on its clock readings. -/
theorem readLoop_iters (endTime rc ec : Nat) (envs : List ReadEnv) :
    (readLoop endTime rc ec envs).iters =
      loopIters endTime (envs.map ReadEnv.now) := by
  induction envs generalizing rc ec with
  | nil => rfl
  | cons e rest ih =>
    by_cases h : e.now < endTime <;>
      simp [readLoop, loopIters, h, ih]

/-- Across a read_test.py run the two counters together advance by exactly
one per executed iteration. -/
theorem readLoop_sum (endTime rc ec : Nat) (envs : List ReadEnv) :
    (readLoop endTime rc ec envs).read_count +
      (readLoop endTime rc ec envs).error_count =
    rc + ec + (readLoop endTime rc ec envs).iters := by
  induction envs generalizing rc ec with
  | nil => rfl
  | cons e rest ih =>
    by_cases h : e.now < endTime
    · simp only [readLoop, h, if_true]
      rcases readIter_counts rc ec e with ⟨h1, h2⟩ | ⟨h1, h2⟩ <;>
        rw [h1, h2] at * <;>
        simp only [ih] <;> omega
    · simp [readLoop, h]

/-! ## Claims -/

/-- Claim C1, as stated, is false: an insert_test.py iteration whose insert
fails but whose count succeeds prints two lines (the error diagnostic and
the read-available status line), not exactly one. -/
theorem C1_counterexample :
    (insertIter 0
      { now := 0, timestamp := "00:00:00",
        insertRes := Except.error
          { ty := "OperationFailure", msg := "not primary",
            details := none, cause := "None" },
        countRes := Except.ok 5 }).lines.length = 2 ∧ (2 : Nat) ≠ 1 := by
  constructor
  · rfl
  · decide

/-- Claim C1 (amended): every poll-loop iteration prints at least one line,
and an iteration all of whose operations succeed prints exactly one status
line; an iteration with a failed operation may print additional diagnostic
lines. -/
theorem C1_amended :
    (∀ (c : Nat) (e : InsertEnv), 1 ≤ (insertIter c e).lines.length) ∧
    (∀ (c : Nat) (e : InsertEnv) (insertedId : String) (rc : Nat),
        e.insertRes = Except.ok insertedId → e.countRes = Except.ok rc →
        (insertIter c e).lines.length = 1) ∧
    (∀ (rc ec : Nat) (e : ReadEnv), 1 ≤ (readIter rc ec e).lines.length) ∧
    (∀ (rc ec : Nat) (e : ReadEnv) (n : Nat),
        e.countRes = Except.ok n → (readIter rc ec e).lines.length = 1) := by
  refine ⟨insertIter_lines_pos, ?_, readIter_lines_pos, ?_⟩
  · intro c e insertedId rc h1 h2
    simp [insertIter, h1, h2]
  · intro rc ec e n h
    simp [readIter, h]

/-- Witness for the amended claim C1 at concrete successful iterations of
both scripts. -/
theorem C1_amended_witness :
    (insertIter 0
      { now := 0, timestamp := "00:00:00",
        insertRes := Except.ok "663a0a",
        countRes := Except.ok 3 }).lines.length = 1 ∧
    (readIter 0 0
      { now := 0, timestamp := "00:00:00",
        countRes := Except.ok 3 }).lines.length = 1 :=
  ⟨C1_amended.2.1 0 _ "663a0a" 3 rfl rfl,
   C1_amended.2.2.2 0 0 _ 3 rfl⟩

/-- Claim C2, as stated, is false of insert_test.py: two runs, one with zero
failed operations and one with one failed operation, end with identical
summary blocks (here: the last two stdout lines), so the summary cannot be
printing an aggregate error counter; insert_test.py indeed keeps none. -/
theorem C2_counterexample :
    insertLoopErrors (0 + insertDurationSecs)
      [{ now := 0, timestamp := "00:00:01",
         insertRes := Except.ok "663a0a", countRes := Except.ok 1 }] = 0 ∧
    insertLoopErrors (0 + insertDurationSecs)
      [{ now := 0, timestamp := "00:00:01",
         insertRes := Except.ok "663a0a", countRes := Except.ok 1 },
       { now := 1, timestamp := "00:00:02",
         insertRes := Except.error
           { ty := "AutoReconnect", msg := "connection closed",
             details := none, cause := "None" },
         countRes := Except.ok 1 }] = 1 ∧
    (insert_test_run
      { argv := ["insert_test.py", "mongodb://h"], tsUsage := "00:00:00",
        connRes := Except.ok (), ts1 := "00:00:00", ts2 := "00:00:00",
        start := 0,
        envs := [{ now := 0, timestamp := "00:00:01",
                   insertRes := Except.ok "663a0a", countRes := Except.ok 1 }],
        tsEnd := "00:10:00", finalCountRes := Except.ok 7,
        tsFinal := "00:10:00" }).out.reverse.take 2 =
    (insert_test_run
      { argv := ["insert_test.py", "mongodb://h"], tsUsage := "00:00:00",
        connRes := Except.ok (), ts1 := "00:00:00", ts2 := "00:00:00",
        start := 0,
        envs := [{ now := 0, timestamp := "00:00:01",
                   insertRes := Except.ok "663a0a", countRes := Except.ok 1 },
                 { now := 1, timestamp := "00:00:02",
                   insertRes := Except.error
                     { ty := "AutoReconnect", msg := "connection closed",
                       details := none, cause := "None" },
                   countRes := Except.ok 1 }],
        tsEnd := "00:10:00", finalCountRes := Except.ok 7,
        tsFinal := "00:10:00" }).out.reverse.take 2 := by
  refine ⟨rfl, rfl, ?_⟩
  rfl

/-- Claim C2 (amended): in read_test.py a failed count advances only the
error counter, the loop continues (the number of iterations is fixed by the
clock readings alone, never cut short by a failure), and the summary prints
both aggregate counters; in insert_test.py a failed insert leaves its only
counter (the success counter) unchanged and the loop likewise continues, but
no error counter exists and the summary reports only the success count and a
final record count. -/
theorem C2_amended :
    (∀ (rc ec : Nat) (e : ReadEnv) (ex : PyExc), e.countRes = Except.error ex →
        (readIter rc ec e).error_count = ec + 1 ∧
        (readIter rc ec e).read_count = rc) ∧
    (∀ (endTime rc ec : Nat) (envs : List ReadEnv),
        (readLoop endTime rc ec envs).iters =
          loopIters endTime (envs.map ReadEnv.now)) ∧
    (∀ (rc ec : Nat) (fr : Except PyExc Nat),
        (readSummaryLines rc ec fr)[1]? =
          some ("Completed " ++ toString rc ++
                " successful read operations in 10 minutes") ∧
        (readSummaryLines rc ec fr)[2]? =
          some ("Total errors: " ++ toString ec)) ∧
    (∀ (c : Nat) (e : InsertEnv) (ex : PyExc), e.insertRes = Except.error ex →
        (insertIter c e).count = c) ∧
    (∀ (endTime c : Nat) (envs : List InsertEnv),
        (insertLoop endTime c envs).iters =
          loopIters endTime (envs.map InsertEnv.now)) := by
  refine ⟨?_, readLoop_iters, ?_, ?_, insertLoop_iters⟩
  · intro rc ec e ex h
    constructor <;> simp [readIter, h]
  · intro rc ec fr
    constructor <;> simp [readSummaryLines]
  · intro c e ex h
    simp [insertIter_count, h]

/-- Witness for the amended claim C2 at a concrete failing iteration of each
script. -/
theorem C2_amended_witness :
    ((readIter 4 0
      { now := 0, timestamp := "00:00:00",
        countRes := Except.error
          { ty := "AutoReconnect", msg := "connection closed",
            details := none, cause := "None" } }).error_count = 0 + 1 ∧
     (readIter 4 0
      { now := 0, timestamp := "00:00:00",
        countRes := Except.error
          { ty := "AutoReconnect", msg := "connection closed",
            details := none, cause := "None" } }).read_count = 4) ∧
    (insertIter 7
      { now := 0, timestamp := "00:00:00",
        insertRes := Except.error
          { ty := "AutoReconnect", msg := "connection closed",
            details := none, cause := "None" },
        countRes := Except.ok 2 }).count = 7 :=
  ⟨C2_amended.1 4 0 _ _ rfl, C2_amended.2.2.2.1 7 _ _ rfl⟩

/-- Claim C3: both poll loops use duration 600 seconds and delay 1 second,
execute exactly the iterations whose top-of-loop clock reading is strictly
below start plus 600 (so no executed iteration begins at or past the end
time, bounding any overrun by one iteration's work), stop immediately at the
first reading at or past the end time, and under a strictly advancing clock
execute at most 600 iterations, hence terminate. -/
theorem C3_termination :
    insertDurationSecs = 600 ∧ readDurationSecs = 600 ∧
    insertSleepSecs = 1 ∧ readSleepSecs = 1 ∧
    (∀ (endTime c : Nat) (envs : List InsertEnv),
        (insertLoop endTime c envs).iters =
          loopIters endTime (envs.map InsertEnv.now)) ∧
    (∀ (endTime rc ec : Nat) (envs : List ReadEnv),
        (readLoop endTime rc ec envs).iters =
          loopIters endTime (envs.map ReadEnv.now)) ∧
    (∀ (start : Nat) (clocks : List Nat) (i : Nat),
        i < loopIters (start + 600) clocks →
        ∃ t, clocks[i]? = some t ∧ t < start + 600) ∧
    (∀ (start t : Nat) (rest : List Nat), start + 600 ≤ t →
        loopIters (start + 600) (t :: rest) = 0) ∧
    (∀ (c : Nat → Nat), StrictMono c → ∀ n : Nat,
        loopIters (c 0 + 600) ((List.range n).map c) ≤ 600) := by
  refine ⟨rfl, rfl, rfl, rfl, insertLoop_iters, readLoop_iters, ?_, ?_, ?_⟩
  · intro start clocks i hi
    exact loopIters_exec_lt (start + 600) clocks i hi
  · intro start t rest h
    exact loopIters_stop (start + 600) t rest h
  · intro c hc n
    exact loopIters_strictMono_le c hc 600 n

/-- Witness for claim C3: a concrete executed iteration starts before the end
time, a reading at the end time stops the loop, and the identity clock
admits at most 600 iterations. -/
theorem C3_termination_witness :
    (∃ t, ([0, 1] : List Nat)[0]? = some t ∧ t < 0 + 600) ∧
    loopIters (0 + 600) [600, 601] = 0 ∧
    loopIters ((fun i => i) 0 + 600) ((List.range 700).map (fun i => i)) ≤ 600 :=
  ⟨C3_termination.2.2.2.2.2.2.1 0 [0, 1] 0 (by decide),
   C3_termination.2.2.2.2.2.2.2.1 0 600 [601] (by decide),
   C3_termination.2.2.2.2.2.2.2.2 (fun i => i) (fun _ _ h => h) 700⟩

/-- Claim C4: in both multi-cloud scripts a client-construction failure is an
uncaught exception, so the process exits with status 1 before reaching the
poll loop and the interpreter traceback names the exception class and
message; in read_test.py a failed mandatory seed insert prints the exception
class, the message and the structured details payload when that attribute is
present, and exits with status 1 before the loop. -/
theorem C4_fatal_setup :
    (∀ (inp : InsertInput) (e : PyExc), inp.argv.length = 2 →
        inp.connRes = Except.error e →
        (insert_test_run inp).status = 1 ∧
        (insert_test_run inp).enteredLoop = false ∧
        (insert_test_run inp).trace = [e.ty ++ ": " ++ e.msg]) ∧
    (∀ (inp : ReadInput) (e : PyExc), inp.argv.length = 2 →
        inp.connRes = Except.error e →
        (read_test_run inp).status = 1 ∧
        (read_test_run inp).enteredLoop = false ∧
        (read_test_run inp).trace = [e.ty ++ ": " ++ e.msg]) ∧
    (∀ (inp : ReadInput) (e : PyExc), inp.argv.length = 2 →
        inp.connRes = Except.ok () → inp.seedRes = Except.error e →
        (read_test_run inp).status = 1 ∧
        (read_test_run inp).enteredLoop = false ∧
        ("  Exception Type: " ++ e.ty) ∈ (read_test_run inp).out ∧
        ("  Exception Message: " ++ e.msg) ∈ (read_test_run inp).out ∧
        (∀ d, e.details = some d →
            ("  Details: " ++ pyReprDict d) ∈ (read_test_run inp).out)) := by
  refine ⟨?_, ?_, ?_⟩
  · intro inp e h1 h2
    simp [insert_test_run, h1, h2, pyTraceback]
  · intro inp e h1 h2
    simp [read_test_run, h1, h2, pyTraceback]
  · intro inp e h1 h2 h3
    refine ⟨?_, ?_, ?_, ?_, ?_⟩ <;>
      simp [read_test_run, h1, h2, h3, seedErrLines, detailsLines]
    intro d hd
    simp [hd]

/-- Witness for claim C4 at the connection descriptor of the spec example
(whose URI scheme the client rejects at construction) and at a concrete
failed seed insert carrying a details payload. -/
theorem C4_fatal_setup_witness :
    ((insert_test_run
      { argv := ["insert_test.py", "bad://invalid"], tsUsage := "00:00:00",
        connRes := Except.error
          { ty := "InvalidURI", msg := "Invalid URI scheme",
            details := none, cause := "None" },
        ts1 := "00:00:00", ts2 := "00:00:00", start := 0, envs := [],
        tsEnd := "00:00:00", finalCountRes := Except.ok 0,
        tsFinal := "00:00:00" }).status = 1 ∧
     (insert_test_run
      { argv := ["insert_test.py", "bad://invalid"], tsUsage := "00:00:00",
        connRes := Except.error
          { ty := "InvalidURI", msg := "Invalid URI scheme",
            details := none, cause := "None" },
        ts1 := "00:00:00", ts2 := "00:00:00", start := 0, envs := [],
        tsEnd := "00:00:00", finalCountRes := Except.ok 0,
        tsFinal := "00:00:00" }).enteredLoop = false ∧
     (insert_test_run
      { argv := ["insert_test.py", "bad://invalid"], tsUsage := "00:00:00",
        connRes := Except.error
          { ty := "InvalidURI", msg := "Invalid URI scheme",
            details := none, cause := "None" },
        ts1 := "00:00:00", ts2 := "00:00:00", start := 0, envs := [],
        tsEnd := "00:00:00", finalCountRes := Except.ok 0,
        tsFinal := "00:00:00" }).trace =
       ["InvalidURI" ++ ": " ++ "Invalid URI scheme"]) ∧
    ((read_test_run
      { argv := ["read_test.py", "mongodb://u:p@h"],
        connRes := Except.ok (),
        seedRes := Except.error
          { ty := "OperationFailure", msg := "not authorized",
            details := some [("errmsg", "not authorized")], cause := "None" },
        start := 0, envs := [], finalCountRes := Except.ok 0 }).status = 1 ∧
     ("  Exception Type: " ++ "OperationFailure") ∈
       (read_test_run
      { argv := ["read_test.py", "mongodb://u:p@h"],
        connRes := Except.ok (),
        seedRes := Except.error
          { ty := "OperationFailure", msg := "not authorized",
            details := some [("errmsg", "not authorized")], cause := "None" },
        start := 0, envs := [], finalCountRes := Except.ok 0 }).out ∧
     ("  Details: " ++ pyReprDict [("errmsg", "not authorized")]) ∈
       (read_test_run
      { argv := ["read_test.py", "mongodb://u:p@h"],
        connRes := Except.ok (),
        seedRes := Except.error
          { ty := "OperationFailure", msg := "not authorized",
            details := some [("errmsg", "not authorized")], cause := "None" },
        start := 0, envs := [], finalCountRes := Except.ok 0 }).out) := by
  have h1 := C4_fatal_setup.1
    { argv := ["insert_test.py", "bad://invalid"], tsUsage := "00:00:00",
      connRes := Except.error
        { ty := "InvalidURI", msg := "Invalid URI scheme",
          details := none, cause := "None" },
      ts1 := "00:00:00", ts2 := "00:00:00", start := 0, envs := [],
      tsEnd := "00:00:00", finalCountRes := Except.ok 0,
      tsFinal := "00:00:00" }
    { ty := "InvalidURI", msg := "Invalid URI scheme",
      details := none, cause := "None" } rfl rfl
  have h2 := C4_fatal_setup.2.2
    { argv := ["read_test.py", "mongodb://u:p@h"],
      connRes := Except.ok (),
      seedRes := Except.error
        { ty := "OperationFailure", msg := "not authorized",
          details := some [("errmsg", "not authorized")], cause := "None" },
      start := 0, envs := [], finalCountRes := Except.ok 0 }
    { ty := "OperationFailure", msg := "not authorized",
      details := some [("errmsg", "not authorized")], cause := "None" }
    rfl rfl rfl
  exact ⟨⟨h1.1, h1.2.1, h1.2.2⟩,
         ⟨h2.1, h2.2.2.1,
          h2.2.2.2.2 [("errmsg", "not authorized")] rfl⟩⟩

/-- When every clock reading is below the end time the loop consumes all of
them. -/
theorem loopIters_all_lt (endTime : Nat) (clocks : List Nat)
    (h : ∀ t ∈ clocks, t < endTime) :
    loopIters endTime clocks = clocks.length := by
  induction clocks with
  | nil => rfl
  | cons t rest ih =>
    have ht : t < endTime := h t (List.mem_cons_self t rest)
    simp only [loopIters, ht, if_true, List.length_cons]
    rw [ih (fun u hu => h u (List.mem_cons_of_mem t hu))]

/-- Claim C5, as stated, is false: the data-pusher script issues a fixed
two-operation sequence — a single insert followed by a single find — with no
loop of any kind, whereas a 600-second poll loop advancing one second per
iteration executes 600 operations. -/
theorem C5_counterexample :
    pusherOps = [DbOp.insertOne movieDoc, DbOp.findAll] ∧
    (pusherOps.filter DbOp.isInsertB).length = 1 ∧
    loopIters 600 (List.range 600) = 600 ∧
    pusherOps.length ≠ 600 := by
  refine ⟨rfl, rfl, ?_, by decide⟩
  rw [loopIters_all_lt 600 (List.range 600)
    (fun t ht => List.mem_range.mp ht)]
  exact List.length_range 600

/-- Claim C5 (amended): the two multi-cloud scripts perform their operations
inside a fixed 600-second wall-clock poll loop with a one-second
inter-iteration delay, executing exactly the clock-admitted iterations; the
data-pusher script instead performs a single insert and a single find with
no loop. -/
theorem C5_amended :
    insertDurationSecs = 600 ∧ readDurationSecs = 600 ∧
    insertSleepSecs = 1 ∧ readSleepSecs = 1 ∧
    (∀ (endTime c : Nat) (envs : List InsertEnv),
        (insertLoop endTime c envs).iters =
          loopIters endTime (envs.map InsertEnv.now)) ∧
    (∀ (endTime rc ec : Nat) (envs : List ReadEnv),
        (readLoop endTime rc ec envs).iters =
          loopIters endTime (envs.map ReadEnv.now)) ∧
    (∀ (inp : InsertInput), inp.argv.length = 2 →
        inp.connRes = Except.ok () → (insert_test_run inp).enteredLoop = true) ∧
    (∀ (argv : List String) (i : Except PyExc String)
        (f : Except PyExc (List Doc)),
        (pusher_run argv i f).enteredLoop = false) ∧
    pusherOps = [DbOp.insertOne movieDoc, DbOp.findAll] := by
  refine ⟨rfl, rfl, rfl, rfl, insertLoop_iters, readLoop_iters, ?_, ?_, rfl⟩
  · intro inp h1 h2
    cases h3 : inp.finalCountRes <;> simp [insert_test_run, h1, h2, h3]
  · intro argv i f
    cases i with
    | error e => rfl
    | ok insertedId => cases f <;> rfl

/-- Witness for the amended claim C5: a concrete run of insert_test.py past
a successful connection reaches the poll loop. -/
theorem C5_amended_witness :
    (insert_test_run
      { argv := ["insert_test.py", "mongodb://h"], tsUsage := "00:00:00",
        connRes := Except.ok (), ts1 := "00:00:00", ts2 := "00:00:00",
        start := 0, envs := [], tsEnd := "00:10:00",
        finalCountRes := Except.ok 0, tsFinal := "00:10:00" }).enteredLoop =
      true :=
  C5_amended.2.2.2.2.2.2.1
    { argv := ["insert_test.py", "mongodb://h"], tsUsage := "00:00:00",
      connRes := Except.ok (), ts1 := "00:00:00", ts2 := "00:00:00",
      start := 0, envs := [], tsEnd := "00:10:00",
      finalCountRes := Except.ok 0, tsFinal := "00:10:00" } rfl rfl

/-- Claim C6, as stated, is false: in insert_test.py the final aggregate
count sits outside any try block, so its failure after a normally completed
loop is an uncaught exception and the process exits with status 1 even
though the arguments were valid, the connection was established, and no seed
insert exists in this script. -/
theorem C6_counterexample :
    (insert_test_run
      { argv := ["insert_test.py", "mongodb://h"], tsUsage := "00:00:00",
        connRes := Except.ok (), ts1 := "00:00:00", ts2 := "00:00:00",
        start := 0, envs := [], tsEnd := "00:10:00",
        finalCountRes := Except.error
          { ty := "AutoReconnect", msg := "connection closed",
            details := none, cause := "None" },
        tsFinal := "00:10:00" }).status = 1 ∧
    (insert_test_run
      { argv := ["insert_test.py", "mongodb://h"], tsUsage := "00:00:00",
        connRes := Except.ok (), ts1 := "00:00:00", ts2 := "00:00:00",
        start := 0, envs := [], tsEnd := "00:10:00",
        finalCountRes := Except.error
          { ty := "AutoReconnect", msg := "connection closed",
            details := none, cause := "None" },
        tsFinal := "00:10:00" }).enteredLoop = true ∧
    (["insert_test.py", "mongodb://h"] : List String).length = 2 ∧
    (Except.ok () : Except PyExc Unit) = Except.ok () := by
  refine ⟨rfl, rfl, rfl, rfl⟩

/-- Claim C6 (amended): insert_test.py exits with status 0 exactly when the
arguments are valid, the client construction succeeds and the final
aggregate count succeeds — so a final-count failure after a normal loop also
exits with status 1; read_test.py exits with status 0 exactly when the
arguments are valid, the construction succeeds and the seed insert succeeds
(its final count is caught); on normal completion both print their summary. -/
theorem C6_amended :
    (∀ inp : InsertInput, (insert_test_run inp).status = 0 ↔
        (inp.argv.length = 2 ∧ (∃ u, inp.connRes = Except.ok u) ∧
         ∃ n, inp.finalCountRes = Except.ok n)) ∧
    (∀ (inp : InsertInput) (n : Nat), inp.argv.length = 2 →
        inp.connRes = Except.ok () → inp.finalCountRes = Except.ok n →
        (insert_test_run inp).status = 0 ∧
        ("[" ++ inp.tsFinal ++ "] Final read count: " ++ toString n) ∈
          (insert_test_run inp).out) ∧
    (∀ inp : ReadInput, (read_test_run inp).status = 0 ↔
        (inp.argv.length = 2 ∧ (∃ u, inp.connRes = Except.ok u) ∧
         ∃ s, inp.seedRes = Except.ok s)) ∧
    (∀ (inp : ReadInput) (s : String), inp.argv.length = 2 →
        inp.connRes = Except.ok () → inp.seedRes = Except.ok s →
        (read_test_run inp).status = 0 ∧
        ("Total errors: " ++
           toString (readLoop (inp.start + readDurationSecs) 0 0
             inp.envs).error_count) ∈ (read_test_run inp).out) := by
  refine ⟨?_, ?_, ?_, ?_⟩
  · intro inp
    by_cases h1 : inp.argv.length = 2
    · cases h2 : inp.connRes with
      | error e => simp [insert_test_run, h1, h2]
      | ok u =>
        cases h3 : inp.finalCountRes <;>
          simp [insert_test_run, h1, h2, h3]
    · simp [insert_test_run, h1]
  · intro inp n h1 h2 h3
    simp [insert_test_run, h1, h2, h3]
  · intro inp
    by_cases h1 : inp.argv.length = 2
    · cases h2 : inp.connRes with
      | error e => simp [read_test_run, h1, h2]
      | ok u =>
        cases h3 : inp.seedRes <;> simp [read_test_run, h1, h2, h3]
    · simp [read_test_run, h1]
  · intro inp s h1 h2 h3
    simp [read_test_run, h1, h2, h3, readSummaryLines]

/-- Witness for the amended claim C6 at a concrete normal completion of each
script. -/
theorem C6_amended_witness :
    (insert_test_run
      { argv := ["insert_test.py", "mongodb://h"], tsUsage := "00:00:00",
        connRes := Except.ok (), ts1 := "00:00:00", ts2 := "00:00:00",
        start := 0, envs := [], tsEnd := "00:10:00",
        finalCountRes := Except.ok 9, tsFinal := "00:10:00" }).status = 0 ∧
    (read_test_run
      { argv := ["read_test.py", "mongodb://h"],
        connRes := Except.ok (), seedRes := Except.ok "663a0a",
        start := 0, envs := [], finalCountRes := Except.ok 1 }).status = 0 :=
  ⟨(C6_amended.2.1
      { argv := ["insert_test.py", "mongodb://h"], tsUsage := "00:00:00",
        connRes := Except.ok (), ts1 := "00:00:00", ts2 := "00:00:00",
        start := 0, envs := [], tsEnd := "00:10:00",
        finalCountRes := Except.ok 9, tsFinal := "00:10:00" } 9 rfl rfl rfl).1,
   (C6_amended.2.2.2
      { argv := ["read_test.py", "mongodb://h"],
        connRes := Except.ok (), seedRes := Except.ok "663a0a",
        start := 0, envs := [], finalCountRes := Except.ok 1 } "663a0a"
      rfl rfl rfl).1⟩

/-- Claim C7, as stated, is false: the data-pusher script performs no
argument validation at all — invoked with zero CLI arguments it neither
prints a usage message nor exits with status 1; it proceeds with its
hardcoded connection parameters. -/
theorem C7_counterexample :
    (pusher_run ["mongo-python-data-pusher.py"]
      (Except.ok "663a0a") (Except.ok [])).usageExit = false ∧
    (pusher_run ["mongo-python-data-pusher.py"]
      (Except.ok "663a0a") (Except.ok [])).status = 0 := by
  exact ⟨rfl, rfl⟩

/-- Claim C7 (amended): in the two multi-cloud scripts exactly one CLI
argument (an argument vector of length two, script name included) proceeds
past validation, while any other argument count prints the usage line and
exits with status 1; the data-pusher script ignores the argument vector
entirely and never takes a usage exit. -/
theorem C7_amended :
    (∀ inp : InsertInput, inp.argv.length = 2 →
        (insert_test_run inp).usageExit = false) ∧
    (∀ inp : InsertInput, inp.argv.length ≠ 2 →
        (insert_test_run inp).usageExit = true ∧
        (insert_test_run inp).status = 1 ∧
        (insert_test_run inp).out = [insertUsageLine inp.tsUsage]) ∧
    (∀ inp : ReadInput, inp.argv.length = 2 →
        (read_test_run inp).usageExit = false) ∧
    (∀ inp : ReadInput, inp.argv.length ≠ 2 →
        (read_test_run inp).usageExit = true ∧
        (read_test_run inp).status = 1 ∧
        (read_test_run inp).out =
          ["Usage: python insert_test.py <connection_string>"]) ∧
    (∀ (argv : List String) (i : Except PyExc String)
        (f : Except PyExc (List Doc)),
        (pusher_run argv i f).usageExit = false) := by
  refine ⟨?_, ?_, ?_, ?_, ?_⟩
  · intro inp h1
    cases h2 : inp.connRes with
    | error e => simp [insert_test_run, h1, h2]
    | ok u => cases h3 : inp.finalCountRes <;>
        simp [insert_test_run, h1, h2, h3]
  · intro inp h1
    refine ⟨?_, ?_, ?_⟩ <;> simp [insert_test_run, h1]
  · intro inp h1
    cases h2 : inp.connRes with
    | error e => simp [read_test_run, h1, h2]
    | ok u => cases h3 : inp.seedRes <;>
        simp [read_test_run, h1, h2, h3]
  · intro inp h1
    refine ⟨?_, ?_, ?_⟩ <;> simp [read_test_run, h1]
  · intro argv i f
    cases i with
    | error e => rfl
    | ok insertedId => cases f <;> rfl

/-- Witness for the amended claim C7: one valid and one invalid invocation
of insert_test.py. -/
theorem C7_amended_witness :
    (insert_test_run
      { argv := ["insert_test.py", "mongodb://h"], tsUsage := "00:00:00",
        connRes := Except.ok (), ts1 := "00:00:00", ts2 := "00:00:00",
        start := 0, envs := [], tsEnd := "00:10:00",
        finalCountRes := Except.ok 0, tsFinal := "00:10:00" }).usageExit =
      false ∧
    (insert_test_run
      { argv := ["insert_test.py"], tsUsage := "00:00:00",
        connRes := Except.ok (), ts1 := "00:00:00", ts2 := "00:00:00",
        start := 0, envs := [], tsEnd := "00:10:00",
        finalCountRes := Except.ok 0, tsFinal := "00:10:00" }).status = 1 :=
  ⟨C7_amended.1
    { argv := ["insert_test.py", "mongodb://h"], tsUsage := "00:00:00",
      connRes := Except.ok (), ts1 := "00:00:00", ts2 := "00:00:00",
      start := 0, envs := [], tsEnd := "00:10:00",
      finalCountRes := Except.ok 0, tsFinal := "00:10:00" } rfl,
   (C7_amended.2.1
    { argv := ["insert_test.py"], tsUsage := "00:00:00",
      connRes := Except.ok (), ts1 := "00:00:00", ts2 := "00:00:00",
      start := 0, envs := [], tsEnd := "00:10:00",
      finalCountRes := Except.ok 0, tsFinal := "00:10:00" }
      (by decide)).2.1⟩

/-- Claim C8, as stated, is false: the data-pusher script issues a find over
the whole collection — a read operation that returns every document,
including the probe record just written, and is not an aggregate count. -/
theorem C8_counterexample :
    DbOp.findAll ∈ pusherOps ∧
    DbOp.isReadB DbOp.findAll = true ∧
    DbOp.isCountB DbOp.findAll = false := by
  refine ⟨?_, rfl, rfl⟩
  simp [pusherOps]

/-- Claim C8 (amended): each insert_test.py iteration attempts exactly one
probe-record insert and its only read is the aggregate count; each
read_test.py loop iteration writes nothing and its only operation is the
aggregate count; the data-pusher script writes its probe record exactly once
but additionally reads every document back with a find that is not a count. -/
theorem C8_amended :
    (∀ count : Nat,
        ((insertIterOps count).filter DbOp.isInsertB).length = 1) ∧
    (∀ count : Nat, ∀ op ∈ insertIterOps count,
        op.isReadB = true → op.isCountB = true) ∧
    (readIterOps.filter DbOp.isInsertB).length = 0 ∧
    (∀ op ∈ readIterOps, op.isReadB = true → op.isCountB = true) ∧
    (pusherOps.filter DbOp.isInsertB).length = 1 ∧
    DbOp.findAll ∈ pusherOps ∧ DbOp.isCountB DbOp.findAll = false := by
  refine ⟨?_, ?_, rfl, ?_, rfl, ?_, rfl⟩
  · intro count
    rfl
  · intro count op hop
    simp [insertIterOps] at hop
    rcases hop with h | h <;> subst h <;> simp [DbOp.isReadB, DbOp.isCountB]
  · intro op hop
    simp [readIterOps] at hop
    subst hop
    intro _
    rfl
  · simp [pusherOps]

/-- Witness for the amended claim C8 at the concrete operations of one
iteration. -/
theorem C8_amended_witness :
    ((insertIterOps 0).filter DbOp.isInsertB).length = 1 ∧
    DbOp.isCountB DbOp.countDocuments = true :=
  ⟨C8_amended.1 0,
   C8_amended.2.2.2.1 DbOp.countDocuments (by simp [readIterOps]) rfl⟩

/-- Claim C9: every read_test.py iteration advances exactly one of the two
counters — the success counter on a successful count, the error counter on a
failed one — so at loop exit the counters started from zero sum to exactly
the number of iterations executed. -/
theorem C9_read_counters :
    (∀ (rc ec : Nat) (e : ReadEnv),
        ((readIter rc ec e).read_count = rc + 1 ∧
           (readIter rc ec e).error_count = ec) ∨
        ((readIter rc ec e).read_count = rc ∧
           (readIter rc ec e).error_count = ec + 1)) ∧
    (∀ (endTime : Nat) (envs : List ReadEnv),
        (readLoop endTime 0 0 envs).read_count +
          (readLoop endTime 0 0 envs).error_count =
        (readLoop endTime 0 0 envs).iters) := by
  refine ⟨readIter_counts, ?_⟩
  intro endTime envs
  have h := readLoop_sum endTime 0 0 envs
  omega

/-- Claim C10: the insert_test.py counter advances exactly on a successful
insert, the documents a run from counter zero persists are the probe
documents with count fields exactly 0, 1, ..., final minus one in insertion
order, the final counter equals the number of successful inserts, and the
completed-summary line reports exactly that number. -/
theorem C10_insert_counter :
    (∀ (c : Nat) (e : InsertEnv) (insertedId : String),
        e.insertRes = Except.ok insertedId → (insertIter c e).count = c + 1) ∧
    (∀ (c : Nat) (e : InsertEnv) (ex : PyExc),
        e.insertRes = Except.error ex → (insertIter c e).count = c) ∧
    (∀ (endTime : Nat) (envs : List InsertEnv),
        (insertLoop endTime 0 envs).docs =
          (List.range (insertLoop endTime 0 envs).count).map probeDoc) ∧
    (∀ (endTime : Nat) (envs : List InsertEnv),
        (insertLoop endTime 0 envs).count =
          insertLoopSuccesses endTime envs) ∧
    (∀ (inp : InsertInput) (n : Nat), inp.argv.length = 2 →
        inp.connRes = Except.ok () → inp.finalCountRes = Except.ok n →
        ("[" ++ inp.tsEnd ++ "] Completed " ++
           toString (insertLoopSuccesses (inp.start + insertDurationSecs)
             inp.envs) ++ " insert operations in 10 minutes") ∈
          (insert_test_run inp).out) := by
  refine ⟨?_, ?_, ?_, ?_, ?_⟩
  · intro c e insertedId h
    simp [insertIter_count, h]
  · intro c e ex h
    simp [insertIter_count, h]
  · intro endTime envs
    have h := insertLoop_docs endTime 0 envs
    rwa [Nat.sub_zero, ← List.range_eq_range'] at h
  · intro endTime envs
    have h := insertLoop_count_eq endTime 0 envs
    omega
  · intro inp n h1 h2 h3
    have hc := insertLoop_count_eq (inp.start + insertDurationSecs) 0 inp.envs
    simp only [Nat.zero_add] at hc
    simp [insert_test_run, h1, h2, h3, ← hc]

/-- Witness for claim C10 at a concrete successful and a concrete failed
insert, and a concrete completed run. -/
theorem C10_insert_counter_witness :
    (insertIter 4
      { now := 0, timestamp := "00:00:00",
        insertRes := Except.ok "663a0a", countRes := Except.ok 5 }).count =
      4 + 1 ∧
    (insertIter 4
      { now := 0, timestamp := "00:00:00",
        insertRes := Except.error
          { ty := "AutoReconnect", msg := "connection closed",
            details := none, cause := "None" },
        countRes := Except.ok 5 }).count = 4 ∧
    ("[" ++ "00:10:00" ++ "] Completed " ++
       toString (insertLoopSuccesses (0 + insertDurationSecs)
         [{ now := 0, timestamp := "00:00:01",
            insertRes := Except.ok "663a0a", countRes := Except.ok 1 }]) ++
       " insert operations in 10 minutes") ∈
      (insert_test_run
        { argv := ["insert_test.py", "mongodb://h"], tsUsage := "00:00:00",
          connRes := Except.ok (), ts1 := "00:00:00", ts2 := "00:00:00",
          start := 0,
          envs := [{ now := 0, timestamp := "00:00:01",
                     insertRes := Except.ok "663a0a",
                     countRes := Except.ok 1 }],
          tsEnd := "00:10:00", finalCountRes := Except.ok 7,
          tsFinal := "00:10:00" }).out :=
  ⟨C10_insert_counter.1 4 _ "663a0a" rfl,
   C10_insert_counter.2.1 4 _ _ rfl,
   C10_insert_counter.2.2.2.2
     { argv := ["insert_test.py", "mongodb://h"], tsUsage := "00:00:00",
       connRes := Except.ok (), ts1 := "00:00:00", ts2 := "00:00:00",
       start := 0,
       envs := [{ now := 0, timestamp := "00:00:01",
                  insertRes := Except.ok "663a0a",
                  countRes := Except.ok 1 }],
       tsEnd := "00:10:00", finalCountRes := Except.ok 7,
       tsFinal := "00:10:00" } 7 rfl rfl rfl⟩
